import Mathlib

/-!
Verification development for the Mad Hat Maven orchestration engine
(`src/steps/claude-client.js`, the four stage modules, `src/server.js`,
`src/index.js`).

The remote Anthropic SDK call (`client.messages.create`) is modelled as an
oracle `Api : GenRequest → Nat → Except ApiError (List String)`: for a given
request payload and a 1-based attempt number it returns either an error
object (with optional HTTP `status` and a `message`) or the list of the
response's content blocks, each reduced to its `text` field.  All code in
this file is a direct shallow embedding of the JavaScript source; the one
deviation is that character case-mapping is the ASCII fragment of
JavaScript's `toLowerCase` (the slugs the repository manipulates are ASCII).
-/

namespace MadHat

/-- The shape of an error thrown by the SDK / by the runtime: an optional
HTTP status and a message string (mirrors `err.status`, `err.message`). -/
structure ApiError where
  status : Option Nat
  message : String
deriving Repr, DecidableEq

/-- Whether `pat` is a prefix of `l`. -/
def listHasPrefix : List Char → List Char → Bool
  | _, [] => true
  | [], _ :: _ => false
  | c :: cs, p :: ps => c == p && listHasPrefix cs ps

/-- Whether `pat` occurs contiguously somewhere in the list. -/
def listIncludes (pat : List Char) : List Char → Bool
  | [] => listHasPrefix [] pat
  | c :: rest => listHasPrefix (c :: rest) pat || listIncludes pat rest

/-- `s.includes(pat)`: some suffix of `s` starts with `pat`. -/
def includesSubstr (s pat : String) : Bool :=
  listIncludes pat.data s.data

/-- `claude-client.js` line 31-32: `err.status === 529 || (err.message &&
err.message.includes('Overloaded'))`.  An empty message is falsy in JS and
also contains no occurrence of the pattern, so the embedding agrees. -/
def isOverloaded (e : ApiError) : Bool :=
  e.status == some 529 || includesSubstr e.message "Overloaded"

/-- The request payload handed to `client.messages.create`: model id,
`max_tokens`, system prompt and the single user message's content. -/
structure GenRequest where
  model : String
  max_tokens : Nat
  system : String
  userContent : String
deriving Repr, DecidableEq

/-- The oracle standing for the remote service: response of the `Nat`-th
`messages.create` call (attempt numbers are 1-based, counted per
`callClaude` invocation; direct SDK callers use attempt 1). -/
def Api : Type := GenRequest → Nat → Except ApiError (List String)

/-- The error Node throws when `message.content[0]` is `undefined` and
`.text` is read off it (`message.content[0].text` on an empty content
list). -/
def typeErrorEmptyContent : ApiError :=
  { status := none, message := "Cannot read properties of undefined (reading 'text')" }

/-- `claude-client.js` line 14. -/
def APP_RETRIES : Nat := 2

/-- `claude-client.js` line 15: 10 seconds between app-level retries. -/
def RETRY_DELAY_MS : Nat := 10000

/-- `claude-client.js` line 39: the clean error message surfaced when all
retries are exhausted on an overloaded failure. -/
def capacityMsg : String :=
  "The AI service is temporarily at capacity. Please wait a minute and try again."

deriving instance DecidableEq for Except

/-- Observable outcome of one client-call site: the returned text or the
thrown error, the sleeps inserted between attempts (milliseconds, in
order), and how many `messages.create` calls were made. -/
structure CallResult where
  result : Except ApiError String
  delays : List Nat
  calls : Nat
deriving Repr, DecidableEq

/-- The retry loop of `callClaude` (`claude-client.js` lines 21-44), fuel =
attempts remaining.  On a successful create, `message.content[0].text` is
returned; with an empty content list that read throws a TypeError inside
the `try`, which the `catch` re-throws unchanged (it is not overloaded).
On an overloaded error with attempts left the loop sleeps
`RETRY_DELAY_MS` and retries; on an overloaded error on the last attempt
it throws the clean capacity error; any other error is re-thrown as is. -/
def callClaudeGo (api : Api) (req : GenRequest) : Nat → Nat → CallResult
  | 0, _ => { result := .error { status := none, message := "retry loop fell through" }, delays := [], calls := 0 }
  | fuel + 1, attempt =>
    match api req attempt with
    | .ok [] => { result := .error typeErrorEmptyContent, delays := [], calls := 1 }
    | .ok (t :: _) => { result := .ok t, delays := [], calls := 1 }
    | .error err =>
      if isOverloaded err then
        if attempt < APP_RETRIES then
          let r := callClaudeGo api req fuel (attempt + 1)
          { result := r.result, delays := RETRY_DELAY_MS :: r.delays, calls := r.calls + 1 }
        else
          { result := .error { status := none, message := capacityMsg }, delays := [], calls := 1 }
      else
        { result := .error err, delays := [], calls := 1 }

/-- `callClaude` (`claude-client.js` lines 17-45): the loop runs attempts
`1 .. APP_RETRIES`. -/
def callClaude (api : Api) (req : GenRequest) : CallResult :=
  callClaudeGo api req APP_RETRIES 1

/-- A direct `new Anthropic(); client.messages.create(...)` call followed by
`message.content[0].text`, as steps 1, 2 and 4 perform it: one attempt, no
retry, the TypeError on empty content propagating to the caller. -/
def directCall (api : Api) (req : GenRequest) : CallResult :=
  match api req 1 with
  | .ok [] => { result := .error typeErrorEmptyContent, delays := [], calls := 1 }
  | .ok (t :: _) => { result := .ok t, delays := [], calls := 1 }
  | .error e => { result := .error e, delays := [], calls := 1 }

/-- The shared system prompt used verbatim by all four step modules. -/
def SYSTEM_PROMPT : String :=
  "You are a strategist at Mad Hat Maven, a creative agency that believes AI gets you close but humans get you there. Your output is direct, human-centered, and free of corporate jargon. Write like a smart person talking to another smart person."

/-- Step 1's optional guidelines block (`step1-analyze.js`). -/
def analyzeGuidelinesBlock : Option String → String
  | none => ""
  | some g => "\n\n---\n\nBRAND GUIDELINES (use these to inform your understanding of tone, audience, and positioning):\n" ++ g

/-- The request step 1 builds (`step1-analyze.js`): model, `max_tokens`
and the interpolated user message. -/
def analyzeRequest (brief : String) (brandGuidelines : Option String) : GenRequest :=
  { model := "claude-sonnet-4-20250514"
    max_tokens := 2048
    system := SYSTEM_PROMPT
    userContent :=
      "Analyze the following client brief and extract structured intelligence. Be specific and grounded — only pull what's actually in the brief or can be directly inferred."
        ++ (if brandGuidelines.isSome then " Factor in the provided brand guidelines when assessing audience and positioning." else "")
        ++ "\n\nReturn your analysis in this format:\n\n**Industry / Market Category:**\n(one line)\n\n**Target Audience:**\n(who this is for — be specific about demographics, psychographics, or situation)\n\n**Core Pain Points:**\n(3–5 numbered problems the product/service addresses)\n\n**Key Differentiators:**\n(what makes this offering stand out from alternatives)\n\n---\n\nCLIENT BRIEF:\n"
        ++ brief ++ analyzeGuidelinesBlock brandGuidelines }

/-- `analyzeBrief` (`step1-analyze.js`): a direct SDK call — it does not go
through `callClaude`. -/
def analyzeBrief (brief : String) (brandGuidelines : Option String) (api : Api) : CallResult :=
  directCall api (analyzeRequest brief brandGuidelines)

/-- Step 2's optional guidelines block (`step2-painpoints.js`). -/
def expandGuidelinesBlock : Option String → String
  | none => ""
  | some g => "\n\n---\n\nBRAND GUIDELINES (use these to understand who the consumer is and how they speak):\n" ++ g

/-- The request step 2 builds (`step2-painpoints.js`). -/
def expandRequest (brief analysis : String) (brandGuidelines : Option String) : GenRequest :=
  { model := "claude-sonnet-4-5-20250929"
    max_tokens := 4096
    system := SYSTEM_PROMPT
    userContent :=
      "You've just completed a brief analysis (below). Now take each pain point and rewrite it the way the actual consumer would say it — out loud, in a search bar, or in a frustrated text to a friend.\n\nRules:\n- No marketing language. No polish. Raw and real.\n- Each rewrite should sound like a Reddit comment, a Google search, or something muttered at a laptop at 11pm.\n- Match the emotional register: frustrated, skeptical, hopeful, overwhelmed — whatever fits.\n- Keep it to one or two sentences per pain point.\n- Number them to match the original pain points."
        ++ (if brandGuidelines.isSome then "\n- Use the brand guidelines to inform who this consumer is and how they talk." else "")
        ++ "\n\n---\n\nORIGINAL BRIEF:\n" ++ brief ++ "\n\n---\n\nSTEP 1 ANALYSIS:\n"
        ++ analysis ++ expandGuidelinesBlock brandGuidelines }

/-- `expandPainPoints` (`step2-painpoints.js`): a direct SDK call — it does
not go through `callClaude`. -/
def expandPainPoints (brief analysis : String) (brandGuidelines : Option String) (api : Api) : CallResult :=
  directCall api (expandRequest brief analysis brandGuidelines)

/-- Step 3's optional guidelines block (`step3-copy.js`). -/
def copyGuidelinesBlock : Option String → String
  | none => ""
  | some g => "\n\n---\n\nBRAND GUIDELINES (all copy MUST comply with these — tone, voice, restrictions, and audience rules take priority):\n" ++ g

/-- The request step 3 builds (`step3-copy.js`). -/
def copyRequest (brief analysis painPoints : String) (brandGuidelines : Option String) : GenRequest :=
  { model := "claude-sonnet-4-20250514"
    max_tokens := 4096
    system := SYSTEM_PROMPT
    userContent :=
      "Using the brief analysis and consumer-voice pain points below, generate ad copy variations for each pain point."
        ++ (if brandGuidelines.isSome then " IMPORTANT: All copy must be filtered through the provided brand guidelines — match the specified tone, voice, and audience rules exactly." else "")
        ++ "\n\nFor EACH pain point, write exactly 3 variations:\n\n**A) Social** — Short, punchy, scroll-stopping. Fits a caption or card. Think: the thing that makes someone stop mid-scroll and screenshot it.\n\n**B) Search** — Intent-driven, benefit-forward. Write a headline (max 30 chars) + description (max 90 chars). This is for someone actively looking for a solution.\n\n**C) Video Script Opener** — The first 5 seconds of a video ad. Hook the viewer hard enough that they don't skip. Write it as a spoken line or scene direction.\n\nFormat as markdown with a ### heading per pain point, then A/B/C sub-sections.\n\n---\n\nORIGINAL BRIEF:\n"
        ++ brief ++ "\n\n---\n\nSTEP 1 ANALYSIS:\n" ++ analysis
        ++ "\n\n---\n\nSTEP 2 PAIN POINTS (CONSUMER VOICE):\n" ++ painPoints
        ++ copyGuidelinesBlock brandGuidelines }

/-- `generateCopy` (`step3-copy.js`): the one stage that routes its remote
call through `callClaude`. -/
def generateCopy (brief analysis painPoints : String) (brandGuidelines : Option String) (api : Api) : CallResult :=
  callClaude api (copyRequest brief analysis painPoints brandGuidelines)

/-- Step 4's optional guidelines block (`step4-strategy.js`). -/
def strategyGuidelinesBlock : Option String → String
  | none => ""
  | some g => "\n\n---\n\nBRAND GUIDELINES (the strategy must align with these — tone guidance should incorporate and build on these rules, not contradict them):\n" ++ g

/-- The request step 4 builds (`step4-strategy.js`). -/
def strategyRequest (brief analysis painPoints copy : String) (brandGuidelines : Option String) : GenRequest :=
  { model := "claude-sonnet-4-5-20250929"
    max_tokens := 4096
    system := SYSTEM_PROMPT
    userContent :=
      "You have the full picture: the client brief, the analysis, the consumer-voice pain points, and the ad copy."
        ++ (if brandGuidelines.isSome then " You also have the client's brand guidelines — your strategy must align with and build on these." else "")
        ++ " Now write a one-page campaign strategy brief.\n\nThis should read like it was written by a senior strategist — opinionated, grounded, and useful. Not a template. Not a list of hedged suggestions. Someone should be able to hand this to a creative director or a client and have them nod.\n\nInclude these sections:\n\n### Positioning Statement\nOne crisp paragraph. Who this is for, what the offering does, and why it matters right now.\n\n### Channel Priority\nWhere to focus first and why. Rank the channels (social, search, video) based on what the data and copy suggest. Include a brief rationale for the top pick.\n\n### Tone Guidance\nHow the brand should sound across all channels. What energy to bring. What to avoid. Be specific — \"authentic\" is not a direction, \"sounds like your smartest friend who happens to work in the industry\" is."
        ++ (if brandGuidelines.isSome then " Incorporate the brand guidelines into this section — build on them, don't contradict them." else "")
        ++ "\n\n### The Brave Idea (Optional)\nIf there's one creative angle worth exploring — something a bit unexpected, a campaign hook, a positioning move — put it here. One paragraph max. If nothing stands out, skip this section entirely.\n\n---\n\nORIGINAL BRIEF:\n"
        ++ brief ++ "\n\n---\n\nSTEP 1 ANALYSIS:\n" ++ analysis
        ++ "\n\n---\n\nSTEP 2 PAIN POINTS (CONSUMER VOICE):\n" ++ painPoints
        ++ "\n\n---\n\nSTEP 3 AD COPY:\n" ++ copy
        ++ strategyGuidelinesBlock brandGuidelines }

/-- `buildStrategy` (`step4-strategy.js`): a direct SDK call — it does not
go through `callClaude`. -/
def buildStrategy (brief analysis painPoints copy : String) (brandGuidelines : Option String) (api : Api) : CallResult :=
  directCall api (strategyRequest brief analysis painPoints copy brandGuidelines)

/-! ### Slugs (`server.js` `toSlug`, identical in `index.js`) -/

/-- The ASCII fragment of JavaScript's `\s` character class, on which it is
exact: for a character below U+0080, `\s` matches exactly space, tab, LF,
VT, FF and CR.  The full class also matches Unicode space separators such
as U+00A0, so theorems that quantify over characters and lean on this
definition restrict their domain to ASCII. -/
def isJsWs (c : Char) : Bool :=
  c == ' ' || c == '\t' || c == '\n' || c == '\r' || c == '\x0b' || c == '\x0c'

/-- The ASCII fragment of `String.prototype.toLowerCase`, applied per
char, on which it is exact: `toLowerCase` maps an ASCII character to
itself unless it is `A`-`Z`, which map to `a`-`z`.  Outside ASCII,
`toLowerCase` performs full Unicode case mapping (e.g. U+212A to `k`), so
theorems that quantify over characters and lean on this definition
restrict their domain to ASCII. -/
def jsToLower (c : Char) : Char :=
  if 'A' ≤ c && c ≤ 'Z' then Char.ofNat (c.toNat + 32) else c

/-- What the second regex of `toSlug` keeps: `[a-z0-9-]`. -/
def slugAllowed (c : Char) : Bool :=
  ('a' ≤ c && c ≤ 'z') || ('0' ≤ c && c ≤ '9') || c == '-'

/-- `replace(/\s+/g, '-')`: a left-to-right scan that turns each maximal
whitespace run into one hyphen; the flag records whether the previous
character was part of a run already replaced. -/
def collapseWsGo : Bool → List Char → List Char
  | _, [] => []
  | prevWs, c :: rest =>
    if isJsWs c then
      if prevWs then collapseWsGo true rest
      else '-' :: collapseWsGo true rest
    else c :: collapseWsGo false rest

/-- `toSlug` (`server.js` lines 38-40):
`name.toLowerCase().replace(/\s+/g, '-').replace(/[^a-z0-9-]/g, '')`. -/
def toSlug (name : String) : String :=
  String.mk ((collapseWsGo false (name.data.map jsToLower)).filter slugAllowed)

theorem dropWhile_length_le (p : Char → Bool) :
    ∀ l : List Char, (l.dropWhile p).length ≤ l.length
  | [] => Nat.le_refl _
  | a :: l => by
    by_cases h : p a
    · simp only [List.dropWhile_cons, h, if_true]
      exact Nat.le_succ_of_le (dropWhile_length_le p l)
    · simp only [List.dropWhile_cons, h, if_false]
      exact Nat.le_refl _

/-- Modelled from the spec's wording for comparison with `toSlug`:
"whitespace runs replaced by hyphens", read as replacing each maximal
whitespace run, wherever it starts, by a single hyphen. -/
def specCollapse : List Char → List Char
  | [] => []
  | c :: rest =>
    if isJsWs c then '-' :: specCollapse (rest.dropWhile fun x => isJsWs x)
    else c :: specCollapse rest
termination_by l => l.length
decreasing_by
  · exact Nat.lt_succ_of_le (dropWhile_length_le _ rest)
  · exact Nat.lt_succ_of_le (Nat.le_refl _)

/-- The spec's slug description as its own definition: the name lowercased,
whitespace runs replaced by hyphens, remaining characters outside
`[a-z0-9-]` removed. -/
def slugSpec (name : String) : String :=
  String.mk ((specCollapse (name.data.map jsToLower)).filter slugAllowed)

/-! ### The SSE server (`server.js`) -/

/-- A pipeline event as written to the SSE stream by `sendEvent`
(heartbeat comments are transport keep-alives, not pipeline events). -/
inductive Event
  | stepStart (step : Nat) (label : String)
  | stepDone (step : Nat) (label : String) (output : String)
  | paused (analysis painPoints : String)
  | pipelineDone (outputPath : String)
  | pipelineError (msg : String)
deriving Repr, DecidableEq

/-- Whether an event is terminal for a run: `pipeline:done` or
`pipeline:error`. -/
def isTerminal : Event → Bool
  | .pipelineDone _ => true
  | .pipelineError _ => true
  | _ => false

/-- Body of `POST /api/run`; a missing field and an empty string are both
falsy in JS and behave identically here, so each is modelled as `""`. -/
structure RunRequest where
  clientName : String
  brief : String
  brandGuidelines : Option String

/-- Body of `POST /api/resume`. -/
structure ResumeRequest where
  clientName : String
  brief : String
  analysis : String
  painPoints : String
  brandGuidelines : Option String

/-- The observable outcome of one handler invocation: HTTP status (400 for
the validation reject, 200 for an SSE stream), the JSON error body if any,
the pipeline events written to the stream in order, the files written as
(path, content) pairs in order, and how many `messages.create` calls were
made. -/
structure HandlerResult where
  status : Nat
  errorBody : Option String
  events : List Event
  files : List (String × String)
  apiCalls : Nat
deriving Repr, DecidableEq

/-- `POST /api/run` (`server.js` lines 55-106): validate, write the brief
under `briefs/`, then run steps 1-2, emitting `step:start` / `step:done`
around each and `pipeline:paused` on success or `pipeline:error` on the
first failure. -/
def runHandler (req : RunRequest) (api : Api) : HandlerResult :=
  if req.clientName = "" ∨ req.brief = "" then
    { status := 400, errorBody := some "clientName and brief are required."
      events := [], files := [], apiCalls := 0 }
  else
    let slug := toSlug req.clientName
    let briefFile := ("briefs/" ++ slug ++ ".txt", req.brief)
    let r1 := analyzeBrief req.brief req.brandGuidelines api
    match r1.result with
    | .error e =>
      { status := 200, errorBody := none
        events := [.stepStart 1 "Analyzing brief...", .pipelineError e.message]
        files := [briefFile], apiCalls := r1.calls }
    | .ok analysis =>
      let r2 := expandPainPoints req.brief analysis req.brandGuidelines api
      match r2.result with
      | .error e =>
        { status := 200, errorBody := none
          events := [.stepStart 1 "Analyzing brief...",
                     .stepDone 1 "Brief Analysis" analysis,
                     .stepStart 2 "Expanding pain points in consumer voice...",
                     .pipelineError e.message]
          files := [briefFile], apiCalls := r1.calls + r2.calls }
      | .ok painPoints =>
        { status := 200, errorBody := none
          events := [.stepStart 1 "Analyzing brief...",
                     .stepDone 1 "Brief Analysis" analysis,
                     .stepStart 2 "Expanding pain points in consumer voice...",
                     .stepDone 2 "Pain Points (Consumer Voice)" painPoints,
                     .paused analysis painPoints]
          files := [briefFile], apiCalls := r1.calls + r2.calls }

/-- The final markdown document assembled by `/api/resume` (`server.js`
lines 151-178): strategy first, then analysis, pain points and copy. -/
def finalDocument (clientName date strategy analysis painPoints copy : String) : String :=
  "# Mad Hat Maven — Campaign Brief\n**Client:** " ++ clientName ++ "\n**Date:** " ++ date
    ++ "\n\n---\n\n## Strategy Summary\n\n" ++ strategy
    ++ "\n\n---\n\n## Brief Analysis\n\n" ++ analysis
    ++ "\n\n---\n\n## Pain Points (Consumer Voice)\n\n" ++ painPoints
    ++ "\n\n---\n\n## Ad Copy Variations\n\n" ++ copy ++ "\n"

/-- `POST /api/resume` (`server.js` lines 112-192): validate, run steps
3-4, and on success write the final document under
`output/{date}-{slug}.md` and emit `pipeline:done` with that path.
`date` stands for `todayStamp()`. -/
def resumeHandler (req : ResumeRequest) (api : Api) (date : String) : HandlerResult :=
  if req.clientName = "" ∨ req.brief = "" ∨ req.analysis = "" ∨ req.painPoints = "" then
    { status := 400, errorBody := some "Missing required context to resume pipeline."
      events := [], files := [], apiCalls := 0 }
  else
    let slug := toSlug req.clientName
    let r3 := generateCopy req.brief req.analysis req.painPoints req.brandGuidelines api
    match r3.result with
    | .error e =>
      { status := 200, errorBody := none
        events := [.stepStart 3 "Generating ad copy variations...", .pipelineError e.message]
        files := [], apiCalls := r3.calls }
    | .ok copy =>
      let r4 := buildStrategy req.brief req.analysis req.painPoints copy req.brandGuidelines api
      match r4.result with
      | .error e =>
        { status := 200, errorBody := none
          events := [.stepStart 3 "Generating ad copy variations...",
                     .stepDone 3 "Ad Copy Variations" copy,
                     .stepStart 4 "Building strategy summary...",
                     .pipelineError e.message]
          files := [], apiCalls := r3.calls + r4.calls }
      | .ok strategy =>
        let outputPath := "output/" ++ date ++ "-" ++ slug ++ ".md"
        { status := 200, errorBody := none
          events := [.stepStart 3 "Generating ad copy variations...",
                     .stepDone 3 "Ad Copy Variations" copy,
                     .stepStart 4 "Building strategy summary...",
                     .stepDone 4 "Strategy Summary" strategy,
                     .pipelineDone outputPath]
          files := [(outputPath, finalDocument req.clientName date strategy req.analysis req.painPoints copy)]
          apiCalls := r3.calls + r4.calls }

/-! ## Branch lemmas for the retry loop -/

theorem callClaudeGo_succ_ok (api : Api) (req : GenRequest) (fuel attempt : Nat)
    (t : String) (rest : List String) (h : api req attempt = .ok (t :: rest)) :
    callClaudeGo api req (fuel + 1) attempt = { result := .ok t, delays := [], calls := 1 } := by
  rw [callClaudeGo, h]

theorem callClaudeGo_succ_empty (api : Api) (req : GenRequest) (fuel attempt : Nat)
    (h : api req attempt = .ok []) :
    callClaudeGo api req (fuel + 1) attempt =
      { result := .error typeErrorEmptyContent, delays := [], calls := 1 } := by
  rw [callClaudeGo, h]

theorem callClaudeGo_succ_retry (api : Api) (req : GenRequest) (fuel attempt : Nat)
    (e : ApiError) (h : api req attempt = .error e) (hov : isOverloaded e = true)
    (hlt : attempt < APP_RETRIES) :
    callClaudeGo api req (fuel + 1) attempt =
      { result := (callClaudeGo api req fuel (attempt + 1)).result
        delays := RETRY_DELAY_MS :: (callClaudeGo api req fuel (attempt + 1)).delays
        calls := (callClaudeGo api req fuel (attempt + 1)).calls + 1 } := by
  rw [callClaudeGo, h]
  simp only [hov, if_true, if_pos hlt]

theorem callClaudeGo_succ_exhaust (api : Api) (req : GenRequest) (fuel attempt : Nat)
    (e : ApiError) (h : api req attempt = .error e) (hov : isOverloaded e = true)
    (hge : ¬ attempt < APP_RETRIES) :
    callClaudeGo api req (fuel + 1) attempt =
      { result := .error { status := none, message := capacityMsg }, delays := [], calls := 1 } := by
  rw [callClaudeGo, h]
  simp only [hov, if_true, if_neg hge]

theorem callClaudeGo_succ_perm (api : Api) (req : GenRequest) (fuel attempt : Nat)
    (e : ApiError) (h : api req attempt = .error e) (hov : isOverloaded e = false) :
    callClaudeGo api req (fuel + 1) attempt =
      { result := .error e, delays := [], calls := 1 } := by
  rw [callClaudeGo, h]
  simp only [hov, Bool.false_eq_true, if_false]

/-! ## Slug lemmas -/

theorem collapseWsGo_true_eq : ∀ l : List Char,
    collapseWsGo true l = collapseWsGo false (l.dropWhile fun x => isJsWs x)
  | [] => rfl
  | c :: rest => by
    cases hc : isJsWs c
    · simp only [collapseWsGo, List.dropWhile_cons, hc, Bool.false_eq_true, if_false]
    · simp only [collapseWsGo, List.dropWhile_cons, hc, if_true]
      exact collapseWsGo_true_eq rest

theorem collapse_eq_specCollapse_aux : ∀ n : Nat, ∀ l : List Char, l.length ≤ n →
    collapseWsGo false l = specCollapse l := by
  intro n
  induction n with
  | zero =>
    intro l hl
    have h0 : l = [] := List.eq_nil_of_length_eq_zero (Nat.le_zero.mp hl)
    subst h0
    simp only [collapseWsGo, specCollapse]
  | succ n ih =>
    intro l hl
    cases l with
    | nil => simp only [collapseWsGo, specCollapse]
    | cons c rest =>
      cases hc : isJsWs c
      · simp only [collapseWsGo, specCollapse, hc, Bool.false_eq_true, if_false]
        exact congrArg (List.cons c) (ih rest (Nat.le_of_succ_le_succ hl))
      · simp only [collapseWsGo, specCollapse, hc, if_true]
        rw [collapseWsGo_true_eq rest]
        exact congrArg (List.cons '-')
          (ih _ (Nat.le_trans (dropWhile_length_le _ rest) (Nat.le_of_succ_le_succ hl)))

theorem toSlug_eq_slugSpec (s : String) : toSlug s = slugSpec s := by
  rw [toSlug, slugSpec,
    collapse_eq_specCollapse_aux (s.data.map jsToLower).length _ (Nat.le_refl _)]

theorem collapseWsGo_id (l : List Char) (h : ∀ c ∈ l, isJsWs c = false) :
    ∀ b : Bool, collapseWsGo b l = l := by
  induction l with
  | nil => intro b; rfl
  | cons c rest ih =>
    intro b
    have hc := h c (List.mem_cons_self c rest)
    simp only [collapseWsGo, hc, Bool.false_eq_true, if_false]
    exact congrArg (List.cons c) (ih (fun x hx => h x (List.mem_cons_of_mem c hx)) false)

theorem map_jsToLower_id (l : List Char) (h : ∀ c ∈ l, ('A' ≤ c && c ≤ 'Z') = false) :
    l.map jsToLower = l := by
  induction l with
  | nil => rfl
  | cons c rest ih =>
    have hc := h c (List.mem_cons_self c rest)
    simp only [List.map_cons]
    rw [jsToLower, hc]
    exact congrArg (List.cons c) (ih fun x hx => h x (List.mem_cons_of_mem c hx))

/-- ASCII alphanumeric characters, the ones `toSlug` can keep besides the
hyphen. -/
def isAsciiAlnum (c : Char) : Bool :=
  ('a' ≤ c && c ≤ 'z') || ('A' ≤ c && c ≤ 'Z') || ('0' ≤ c && c ≤ '9')

/-! ## Branch lemmas for the two handlers -/

theorem runHandler_fail1 (req : RunRequest) (api : Api) (e : ApiError)
    (hv : ¬(req.clientName = "" ∨ req.brief = ""))
    (h1 : (analyzeBrief req.brief req.brandGuidelines api).result = .error e) :
    runHandler req api =
      { status := 200, errorBody := none
        events := [.stepStart 1 "Analyzing brief...", .pipelineError e.message]
        files := [("briefs/" ++ toSlug req.clientName ++ ".txt", req.brief)]
        apiCalls := (analyzeBrief req.brief req.brandGuidelines api).calls } := by
  rw [runHandler, if_neg hv]
  dsimp only
  rw [h1]

theorem runHandler_fail2 (req : RunRequest) (api : Api) (a : String) (e : ApiError)
    (hv : ¬(req.clientName = "" ∨ req.brief = ""))
    (h1 : (analyzeBrief req.brief req.brandGuidelines api).result = .ok a)
    (h2 : (expandPainPoints req.brief a req.brandGuidelines api).result = .error e) :
    runHandler req api =
      { status := 200, errorBody := none
        events := [.stepStart 1 "Analyzing brief...",
                   .stepDone 1 "Brief Analysis" a,
                   .stepStart 2 "Expanding pain points in consumer voice...",
                   .pipelineError e.message]
        files := [("briefs/" ++ toSlug req.clientName ++ ".txt", req.brief)]
        apiCalls := (analyzeBrief req.brief req.brandGuidelines api).calls
          + (expandPainPoints req.brief a req.brandGuidelines api).calls } := by
  rw [runHandler, if_neg hv]
  dsimp only
  rw [h1]
  dsimp only
  rw [h2]

theorem runHandler_ok (req : RunRequest) (api : Api) (a p : String)
    (hv : ¬(req.clientName = "" ∨ req.brief = ""))
    (h1 : (analyzeBrief req.brief req.brandGuidelines api).result = .ok a)
    (h2 : (expandPainPoints req.brief a req.brandGuidelines api).result = .ok p) :
    runHandler req api =
      { status := 200, errorBody := none
        events := [.stepStart 1 "Analyzing brief...",
                   .stepDone 1 "Brief Analysis" a,
                   .stepStart 2 "Expanding pain points in consumer voice...",
                   .stepDone 2 "Pain Points (Consumer Voice)" p,
                   .paused a p]
        files := [("briefs/" ++ toSlug req.clientName ++ ".txt", req.brief)]
        apiCalls := (analyzeBrief req.brief req.brandGuidelines api).calls
          + (expandPainPoints req.brief a req.brandGuidelines api).calls } := by
  rw [runHandler, if_neg hv]
  dsimp only
  rw [h1]
  dsimp only
  rw [h2]

theorem resumeHandler_fail3 (rreq : ResumeRequest) (api : Api) (date : String) (e : ApiError)
    (hv : ¬(rreq.clientName = "" ∨ rreq.brief = "" ∨ rreq.analysis = "" ∨ rreq.painPoints = ""))
    (h3 : (generateCopy rreq.brief rreq.analysis rreq.painPoints rreq.brandGuidelines api).result = .error e) :
    resumeHandler rreq api date =
      { status := 200, errorBody := none
        events := [.stepStart 3 "Generating ad copy variations...", .pipelineError e.message]
        files := []
        apiCalls := (generateCopy rreq.brief rreq.analysis rreq.painPoints rreq.brandGuidelines api).calls } := by
  rw [resumeHandler, if_neg hv]
  dsimp only
  rw [h3]

theorem resumeHandler_fail4 (rreq : ResumeRequest) (api : Api) (date : String) (c : String) (e : ApiError)
    (hv : ¬(rreq.clientName = "" ∨ rreq.brief = "" ∨ rreq.analysis = "" ∨ rreq.painPoints = ""))
    (h3 : (generateCopy rreq.brief rreq.analysis rreq.painPoints rreq.brandGuidelines api).result = .ok c)
    (h4 : (buildStrategy rreq.brief rreq.analysis rreq.painPoints c rreq.brandGuidelines api).result = .error e) :
    resumeHandler rreq api date =
      { status := 200, errorBody := none
        events := [.stepStart 3 "Generating ad copy variations...",
                   .stepDone 3 "Ad Copy Variations" c,
                   .stepStart 4 "Building strategy summary...",
                   .pipelineError e.message]
        files := []
        apiCalls := (generateCopy rreq.brief rreq.analysis rreq.painPoints rreq.brandGuidelines api).calls
          + (buildStrategy rreq.brief rreq.analysis rreq.painPoints c rreq.brandGuidelines api).calls } := by
  rw [resumeHandler, if_neg hv]
  dsimp only
  rw [h3]
  dsimp only
  rw [h4]

theorem resumeHandler_ok (rreq : ResumeRequest) (api : Api) (date : String) (c s : String)
    (hv : ¬(rreq.clientName = "" ∨ rreq.brief = "" ∨ rreq.analysis = "" ∨ rreq.painPoints = ""))
    (h3 : (generateCopy rreq.brief rreq.analysis rreq.painPoints rreq.brandGuidelines api).result = .ok c)
    (h4 : (buildStrategy rreq.brief rreq.analysis rreq.painPoints c rreq.brandGuidelines api).result = .ok s) :
    resumeHandler rreq api date =
      { status := 200, errorBody := none
        events := [.stepStart 3 "Generating ad copy variations...",
                   .stepDone 3 "Ad Copy Variations" c,
                   .stepStart 4 "Building strategy summary...",
                   .stepDone 4 "Strategy Summary" s,
                   .pipelineDone ("output/" ++ date ++ "-" ++ toSlug rreq.clientName ++ ".md")]
        files := [("output/" ++ date ++ "-" ++ toSlug rreq.clientName ++ ".md",
                   finalDocument rreq.clientName date s rreq.analysis rreq.painPoints c)]
        apiCalls := (generateCopy rreq.brief rreq.analysis rreq.painPoints rreq.brandGuidelines api).calls
          + (buildStrategy rreq.brief rreq.analysis rreq.painPoints c rreq.brandGuidelines api).calls } := by
  rw [resumeHandler, if_neg hv]
  dsimp only
  rw [h3]
  dsimp only
  rw [h4]

/-! ## Claim theorems -/

/-- C1: when the remote call fails with a transient overloaded signal
(status 529 or a message containing "Overloaded") on every attempt before
the last and succeeds on attempt `APP_RETRIES`, `callClaude` returns the
successful text with no observable error; the delay inserted before
attempt `k` follows the geometric law `RETRY_DELAY_MS * 2 ^ (k - 2)` —
with `APP_RETRIES = 2` there is exactly one inter-attempt delay, so the
base case of that law is the whole of it. -/
theorem callClaude_transient_retry_succeeds (req : GenRequest) (api : Api)
    (t : String) (rest : List String)
    (hov : ∀ k, 1 ≤ k → k < APP_RETRIES → ∃ e, api req k = .error e ∧ isOverloaded e = true)
    (hok : api req APP_RETRIES = .ok (t :: rest)) :
    (callClaude api req).result = .ok t ∧
    (callClaude api req).delays.length = APP_RETRIES - 1 ∧
    ∀ i, i < (callClaude api req).delays.length →
      (callClaude api req).delays.getD i 0 = RETRY_DELAY_MS * 2 ^ i := by
  obtain ⟨e, he, hove⟩ := hov 1 (Nat.le_refl 1) (by norm_num [APP_RETRIES])
  have hrun : callClaude api req = { result := .ok t, delays := [RETRY_DELAY_MS], calls := 2 } := by
    rw [callClaude, show APP_RETRIES = 1 + 1 from rfl,
      callClaudeGo_succ_retry api req 1 1 e he hove (by norm_num [APP_RETRIES]),
      callClaudeGo_succ_ok api req 0 2 t rest (by exact hok)]
  rw [hrun]
  refine ⟨rfl, rfl, ?_⟩
  intro i hi
  simp only [List.length_cons, List.length_nil, Nat.lt_succ_iff, Nat.le_zero] at hi
  subst hi
  rfl

/-- Concrete instance of `callClaude_transient_retry_succeeds`: attempt 1
overloaded, attempt 2 returns "generated text". -/
theorem callClaude_transient_retry_succeeds_witness :
    (callClaude (fun _ k => if k = 1 then .error { status := some 529, message := "Overloaded" } else .ok ["generated text"]) (analyzeRequest "b" none)).result = .ok "generated text" := by
  have h := callClaude_transient_retry_succeeds (analyzeRequest "b" none)
    (fun _ k => if k = 1 then .error { status := some 529, message := "Overloaded" } else .ok ["generated text"])
    "generated text" []
    (by
      intro k hk1 hk2
      have h2 : APP_RETRIES = 2 := rfl
      rw [h2] at hk2
      have hk : k = 1 := by omega
      subst hk
      exact ⟨{ status := some 529, message := "Overloaded" }, rfl, rfl⟩)
    rfl
  exact h.1

/-- C4: when every attempt fails with a transient overloaded signal,
`callClaude` raises exactly one error, the fixed capacity message (distinct
from each raw upstream payload whenever those differ from it, which the
hypothesis records); a non-transient failure on the first attempt is
propagated immediately and unchanged, with no delay and no further
attempt. -/
theorem callClaude_exhaustion_clean_error_and_passthrough (req : GenRequest) (api : Api) :
    ((∀ k, 1 ≤ k → k ≤ APP_RETRIES →
        ∃ e, api req k = .error e ∧ isOverloaded e = true ∧ e.message ≠ capacityMsg) →
      callClaude api req =
        { result := .error { status := none, message := capacityMsg }
          delays := [RETRY_DELAY_MS], calls := 2 } ∧
      (∀ k e, 1 ≤ k → k ≤ APP_RETRIES → api req k = .error e → capacityMsg ≠ e.message)) ∧
    (∀ e, api req 1 = .error e → isOverloaded e = false →
      callClaude api req = { result := .error e, delays := [], calls := 1 }) := by
  have h2 : APP_RETRIES = 2 := rfl
  constructor
  · intro h
    obtain ⟨e1, he1, hov1, hm1⟩ := h 1 (by norm_num) (by norm_num [APP_RETRIES])
    obtain ⟨e2, he2, hov2, hm2⟩ := h 2 (by norm_num) (by norm_num [APP_RETRIES])
    constructor
    · rw [callClaude, show APP_RETRIES = 1 + 1 from rfl,
        callClaudeGo_succ_retry api req 1 1 e1 he1 hov1 (by norm_num [APP_RETRIES]),
        callClaudeGo_succ_exhaust api req 0 2 e2 he2 hov2 (by norm_num [APP_RETRIES])]
    · intro k e hk1 hk2 hke
      rw [h2] at hk2
      have hk : k = 1 ∨ k = 2 := by omega
      rcases hk with hk | hk <;> subst hk
      · rw [he1] at hke
        cases hke
        exact fun hc => hm1 hc.symm
      · rw [he2] at hke
        cases hke
        exact fun hc => hm2 hc.symm
  · intro e he hno
    rw [callClaude, show APP_RETRIES = 1 + 1 from rfl,
      callClaudeGo_succ_perm api req 1 1 e he hno]

/-- Concrete instances of
`callClaude_exhaustion_clean_error_and_passthrough`: both attempts
overloaded yields the capacity error after one 10s delay; a 401 on the
first attempt is propagated unchanged with no retry. -/
theorem callClaude_exhaustion_clean_error_and_passthrough_witness :
    callClaude (fun _ _ => .error { status := some 529, message := "Overloaded: raw upstream payload" }) (analyzeRequest "b" none) =
      { result := .error { status := none, message := capacityMsg }
        delays := [RETRY_DELAY_MS], calls := 2 } ∧
    callClaude (fun _ _ => .error { status := some 401, message := "authentication_error" }) (analyzeRequest "b" none) =
      { result := .error { status := some 401, message := "authentication_error" }
        delays := [], calls := 1 } := by
  constructor
  · exact ((callClaude_exhaustion_clean_error_and_passthrough (analyzeRequest "b" none)
      (fun _ _ => .error { status := some 529, message := "Overloaded: raw upstream payload" })).1
      (fun k _ _ =>
        ⟨{ status := some 529, message := "Overloaded: raw upstream payload" }, rfl, rfl, by decide⟩)).1
  · exact (callClaude_exhaustion_clean_error_and_passthrough (analyzeRequest "b" none)
      (fun _ _ => .error { status := some 401, message := "authentication_error" })).2
      { status := some 401, message := "authentication_error" } rfl (by decide)

/-- C2 counterexample: with an oracle that is overloaded on attempt 1 and
succeeds on attempt 2, `generateCopy` (which routes through `callClaude`)
recovers, but `analyzeBrief` fails with the raw overloaded error — so it is
not true that every stage's remote invocation carries the Generation
Client's transient-retry behavior. -/
theorem stage_bypasses_client_cx :
    (analyzeBrief "We sell eco-friendly packaging" none
      (fun _ k => if k = 1 then .error { status := some 529, message := "Overloaded" } else .ok ["recovered"])).result =
        .error { status := some 529, message := "Overloaded" } ∧
    isOverloaded { status := some 529, message := "Overloaded" } = true ∧
    (generateCopy "We sell eco-friendly packaging" "a" "p" none
      (fun _ k => if k = 1 then .error { status := some 529, message := "Overloaded" } else .ok ["recovered"])).result =
        .ok "recovered" :=
  ⟨rfl, rfl, rfl⟩

/-- C2 as amended: each stage makes exactly one remote call site
invocation, but only step 3 (`generateCopy`) routes it through
`callClaude`: on a transient failure of the first attempt followed by a
success, step 3 retries and succeeds with two create calls, while steps 1,
2 and 4 propagate the transient error after a single call; when the first
attempt succeeds, every stage makes exactly one create call. -/
theorem stage_call_structure_amended (brief analysis painPoints copy t : String)
    (rest : List String) (bg : Option String) (e : ApiError)
    (hov : isOverloaded e = true) :
    (generateCopy brief analysis painPoints bg (fun _ k => if k = 1 then .error e else .ok (t :: rest)) =
      { result := .ok t, delays := [RETRY_DELAY_MS], calls := 2 }) ∧
    (analyzeBrief brief bg (fun _ k => if k = 1 then .error e else .ok (t :: rest)) =
      { result := .error e, delays := [], calls := 1 }) ∧
    (expandPainPoints brief analysis bg (fun _ k => if k = 1 then .error e else .ok (t :: rest)) =
      { result := .error e, delays := [], calls := 1 }) ∧
    (buildStrategy brief analysis painPoints copy bg (fun _ k => if k = 1 then .error e else .ok (t :: rest)) =
      { result := .error e, delays := [], calls := 1 }) ∧
    (∀ api : Api, (∀ r k, api r k = .ok (t :: rest)) →
      (analyzeBrief brief bg api).calls = 1 ∧
      (expandPainPoints brief analysis bg api).calls = 1 ∧
      (generateCopy brief analysis painPoints bg api).calls = 1 ∧
      (buildStrategy brief analysis painPoints copy bg api).calls = 1) := by
  refine ⟨?_, rfl, rfl, rfl, ?_⟩
  · rw [generateCopy, callClaude, show APP_RETRIES = 1 + 1 from rfl,
      callClaudeGo_succ_retry _ _ 1 1 e rfl hov (by norm_num [APP_RETRIES]),
      callClaudeGo_succ_ok _ _ 0 2 t rest rfl]
  · intro api hapi
    refine ⟨?_, ?_, ?_, ?_⟩
    · rw [analyzeBrief, directCall, hapi]
    · rw [expandPainPoints, directCall, hapi]
    · rw [generateCopy, callClaude, show APP_RETRIES = 1 + 1 from rfl,
        callClaudeGo_succ_ok _ _ 1 1 t rest (hapi _ 1)]
    · rw [buildStrategy, directCall, hapi]

/-- Concrete instance of `stage_call_structure_amended` at the overloaded
error with status 529. -/
theorem stage_call_structure_amended_witness :
    (generateCopy "b" "a" "p" none
      (fun _ k => if k = 1 then .error { status := some 529, message := "Overloaded" } else .ok ["t"]) =
      { result := .ok "t", delays := [RETRY_DELAY_MS], calls := 2 }) ∧
    (analyzeBrief "b" none
      (fun _ k => if k = 1 then .error { status := some 529, message := "Overloaded" } else .ok ["t"]) =
      { result := .error { status := some 529, message := "Overloaded" }, delays := [], calls := 1 }) := by
  have h := stage_call_structure_amended "b" "a" "p" "c" "t" [] none
    { status := some 529, message := "Overloaded" } rfl
  exact ⟨h.1, h.2.1⟩

/-- C3: for a valid Start request whose two stage calls succeed, the events
written to the stream are exactly `started(1)`, `completed(1)`,
`started(2)`, `completed(2)`, `paused` in that order; for a valid Resume
request whose two stage calls succeed they are exactly `started(3)`,
`completed(3)`, `started(4)`, `completed(4)`, `done`.  Stage success is
modelled by an oracle answering every request `r` with one content block
`f r` on the first attempt. -/
theorem start_resume_success_event_order (name brief analysis painPoints date : String)
    (bg : Option String) (f : GenRequest → String)
    (hn : name ≠ "") (hb : brief ≠ "") (ha : analysis ≠ "") (hp : painPoints ≠ "") :
    (runHandler ⟨name, brief, bg⟩ (fun r _ => .ok [f r])).events =
      [.stepStart 1 "Analyzing brief...",
       .stepDone 1 "Brief Analysis" (f (analyzeRequest brief bg)),
       .stepStart 2 "Expanding pain points in consumer voice...",
       .stepDone 2 "Pain Points (Consumer Voice)"
         (f (expandRequest brief (f (analyzeRequest brief bg)) bg)),
       .paused (f (analyzeRequest brief bg))
         (f (expandRequest brief (f (analyzeRequest brief bg)) bg))] ∧
    (resumeHandler ⟨name, brief, analysis, painPoints, bg⟩ (fun r _ => .ok [f r]) date).events =
      [.stepStart 3 "Generating ad copy variations...",
       .stepDone 3 "Ad Copy Variations" (f (copyRequest brief analysis painPoints bg)),
       .stepStart 4 "Building strategy summary...",
       .stepDone 4 "Strategy Summary"
         (f (strategyRequest brief analysis painPoints (f (copyRequest brief analysis painPoints bg)) bg)),
       .pipelineDone ("output/" ++ date ++ "-" ++ toSlug name ++ ".md")] := by
  constructor
  · rw [runHandler_ok ⟨name, brief, bg⟩ (fun r _ => .ok [f r])
      (f (analyzeRequest brief bg)) (f (expandRequest brief (f (analyzeRequest brief bg)) bg))
      (by simp [hn, hb]) rfl rfl]
  · rw [resumeHandler_ok ⟨name, brief, analysis, painPoints, bg⟩ (fun r _ => .ok [f r]) date
      (f (copyRequest brief analysis painPoints bg))
      (f (strategyRequest brief analysis painPoints (f (copyRequest brief analysis painPoints bg)) bg))
      (by simp [hn, hb, ha, hp])
      (by
        rw [generateCopy, callClaude, show APP_RETRIES = 1 + 1 from rfl,
          callClaudeGo_succ_ok _ _ 1 1 _ [] rfl])
      rfl]

/-- Concrete instance of `start_resume_success_event_order` with the
constant success oracle. -/
theorem start_resume_success_event_order_witness :
    (runHandler ⟨"Acme Corp", "We sell eco-friendly packaging", none⟩ (fun _ _ => .ok ["out"])).events =
      [.stepStart 1 "Analyzing brief...",
       .stepDone 1 "Brief Analysis" "out",
       .stepStart 2 "Expanding pain points in consumer voice...",
       .stepDone 2 "Pain Points (Consumer Voice)" "out",
       .paused "out" "out"] := by
  have h := start_resume_success_event_order "Acme Corp" "We sell eco-friendly packaging"
    "a" "p" "2026-10-12" none (fun _ => "out")
    (by decide) (by decide) (by decide) (by decide)
  exact h.1

/-- C5: a `pipeline:error` or `pipeline:done` event is always the last
pipeline event of a run: for every request (valid or not) and every
oracle, every event before the last one on either endpoint's stream is
non-terminal. -/
theorem terminal_event_always_last (req : RunRequest) (rreq : ResumeRequest)
    (api : Api) (date : String) :
    ((runHandler req api).events.dropLast.all fun e => !isTerminal e) = true ∧
    ((resumeHandler rreq api date).events.dropLast.all fun e => !isTerminal e) = true := by
  constructor
  · by_cases hv : req.clientName = "" ∨ req.brief = ""
    · rw [runHandler, if_pos hv]
      rfl
    · rcases h1 : (analyzeBrief req.brief req.brandGuidelines api).result with e1 | a
      · rw [runHandler_fail1 req api e1 hv h1]
        rfl
      · rcases h2 : (expandPainPoints req.brief a req.brandGuidelines api).result with e2 | p
        · rw [runHandler_fail2 req api a e2 hv h1 h2]
          rfl
        · rw [runHandler_ok req api a p hv h1 h2]
          rfl
  · by_cases hv : rreq.clientName = "" ∨ rreq.brief = "" ∨ rreq.analysis = "" ∨ rreq.painPoints = ""
    · rw [resumeHandler, if_pos hv]
      rfl
    · rcases h3 : (generateCopy rreq.brief rreq.analysis rreq.painPoints rreq.brandGuidelines api).result with e3 | c
      · rw [resumeHandler_fail3 rreq api date e3 hv h3]
        rfl
      · rcases h4 : (buildStrategy rreq.brief rreq.analysis rreq.painPoints c rreq.brandGuidelines api).result with e4 | s
        · rw [resumeHandler_fail4 rreq api date c e4 hv h3 h4]
          rfl
        · rw [resumeHandler_ok rreq api date c s hv h3 h4]
          rfl

/-- C6: a Start request missing the client name or with an empty brief,
and a Resume request missing any of client name, brief, analysis or pain
points, is rejected with the structured 400 error before anything else
happens: no event is emitted, no file is written and no `messages.create`
call is made. -/
theorem invalid_request_rejected_no_side_effects (req : RunRequest) (rreq : ResumeRequest)
    (api : Api) (date : String) :
    ((req.clientName = "" ∨ req.brief = "") →
      runHandler req api =
        { status := 400, errorBody := some "clientName and brief are required."
          events := [], files := [], apiCalls := 0 }) ∧
    ((rreq.clientName = "" ∨ rreq.brief = "" ∨ rreq.analysis = "" ∨ rreq.painPoints = "") →
      resumeHandler rreq api date =
        { status := 400, errorBody := some "Missing required context to resume pipeline."
          events := [], files := [], apiCalls := 0 }) := by
  constructor
  · intro h
    rw [runHandler, if_pos h]
  · intro h
    rw [resumeHandler, if_pos h]

/-- Concrete instance of `invalid_request_rejected_no_side_effects`: Start
with an empty brief and Resume missing the pain points. -/
theorem invalid_request_rejected_no_side_effects_witness :
    runHandler ⟨"Acme Corp", "", none⟩ (fun _ _ => .ok ["x"]) =
      { status := 400, errorBody := some "clientName and brief are required."
        events := [], files := [], apiCalls := 0 } ∧
    resumeHandler ⟨"Acme Corp", "b", "a", "", none⟩ (fun _ _ => .ok ["x"]) "2026-10-12" =
      { status := 400, errorBody := some "Missing required context to resume pipeline."
        events := [], files := [], apiCalls := 0 } := by
  have h := invalid_request_rejected_no_side_effects ⟨"Acme Corp", "", none⟩
    ⟨"Acme Corp", "b", "a", "", none⟩ (fun _ _ => .ok ["x"]) "2026-10-12"
  exact ⟨h.1 (Or.inr rfl), h.2 (Or.inr (Or.inr (Or.inr rfl)))⟩

/-- C7 counterexample: a valid Start run that fails at stage 1 still leaves
a file on disk — the brief (part of the PipelineContext) is written under
`briefs/` before any stage runs — so "a failed run leaves no file written"
is false. -/
theorem failed_run_still_writes_brief_cx :
    (runHandler ⟨"Acme Corp", "We sell eco-friendly packaging", none⟩
      (fun _ _ => .error { status := some 400, message := "invalid_request_error" })).events =
      [.stepStart 1 "Analyzing brief...", .pipelineError "invalid_request_error"] ∧
    (runHandler ⟨"Acme Corp", "We sell eco-friendly packaging", none⟩
      (fun _ _ => .error { status := some 400, message := "invalid_request_error" })).files =
      [("briefs/acme-corp.txt", "We sell eco-friendly packaging")] := by
  exact ⟨rfl, rfl⟩

/-- C7 as amended: a valid Start run that fails at some stage persists
exactly one file — the brief source text under `briefs/`, written before
stage 1 — and no stage output and no final document: never a path under
`output/`.  A Resume run that fails at some stage writes no file at
all. -/
theorem failed_run_persists_only_brief_file (req : RunRequest) (rreq : ResumeRequest)
    (api : Api) (date : String)
    (hn : req.clientName ≠ "") (hb : req.brief ≠ "")
    (hfail : ∃ m, Event.pipelineError m ∈ (runHandler req api).events) :
    (runHandler req api).files =
      [("briefs/" ++ toSlug req.clientName ++ ".txt", req.brief)] ∧
    (∀ m, Event.pipelineError m ∈ (resumeHandler rreq api date).events →
      (resumeHandler rreq api date).files = []) := by
  have hv : ¬(req.clientName = "" ∨ req.brief = "") := by simp [hn, hb]
  constructor
  · rcases h1 : (analyzeBrief req.brief req.brandGuidelines api).result with e1 | a
    · rw [runHandler_fail1 req api e1 hv h1]
    · rcases h2 : (expandPainPoints req.brief a req.brandGuidelines api).result with e2 | p
      · rw [runHandler_fail2 req api a e2 hv h1 h2]
      · rw [runHandler_ok req api a p hv h1 h2]
  · intro m hm
    by_cases hrv : rreq.clientName = "" ∨ rreq.brief = "" ∨ rreq.analysis = "" ∨ rreq.painPoints = ""
    · rw [resumeHandler, if_pos hrv]
    · rcases h3 : (generateCopy rreq.brief rreq.analysis rreq.painPoints rreq.brandGuidelines api).result with e3 | c
      · rw [resumeHandler_fail3 rreq api date e3 hrv h3]
      · rcases h4 : (buildStrategy rreq.brief rreq.analysis rreq.painPoints c rreq.brandGuidelines api).result with e4 | s
        · rw [resumeHandler_fail4 rreq api date c e4 hrv h3 h4]
        · exfalso
          rw [resumeHandler_ok rreq api date c s hrv h3 h4] at hm
          simp only [List.mem_cons, List.not_mem_nil, or_false] at hm
          rcases hm with h | h | h | h | h <;> cases h

/-- Concrete instance of `failed_run_persists_only_brief_file`: the run of
`failed_run_still_writes_brief_cx` and a resume failing at stage 3. -/
theorem failed_run_persists_only_brief_file_witness :
    (runHandler ⟨"Acme Corp", "b", none⟩
      (fun _ _ => .error { status := some 400, message := "invalid_request_error" })).files =
      [("briefs/acme-corp.txt", "b")] ∧
    (resumeHandler ⟨"Acme Corp", "b", "a", "p", none⟩
      (fun _ _ => .error { status := some 400, message := "invalid_request_error" }) "2026-10-12").files = [] := by
  have h := failed_run_persists_only_brief_file ⟨"Acme Corp", "b", none⟩
    ⟨"Acme Corp", "b", "a", "p", none⟩
    (fun _ _ => .error { status := some 400, message := "invalid_request_error" }) "2026-10-12"
    (by decide) (by decide)
    ⟨"invalid_request_error", by decide⟩
  exact ⟨h.1, h.2 "invalid_request_error" (by decide)⟩

/-- C8: `toSlug` agrees, on every name, with the spec's description
(`slugSpec`: lowercase, whitespace runs to hyphens, remaining characters
outside `[a-z0-9-]` removed); "Acme Corp" slugs to "acme-corp"; a valid
Start writes the submitted brief text verbatim to `briefs/{slug}.txt`; a
successful Resume stores the final document at
`output/{date}-{slug}.md`. -/
theorem slug_and_persistence_layout (name brief analysis painPoints date : String)
    (bg : Option String) (f : GenRequest → String)
    (hn : name ≠ "") (hb : brief ≠ "") (ha : analysis ≠ "") (hp : painPoints ≠ "") :
    (∀ s : String, toSlug s = slugSpec s) ∧
    toSlug "Acme Corp" = "acme-corp" ∧
    (runHandler ⟨name, brief, bg⟩ (fun r _ => .ok [f r])).files =
      [("briefs/" ++ toSlug name ++ ".txt", brief)] ∧
    (resumeHandler ⟨name, brief, analysis, painPoints, bg⟩ (fun r _ => .ok [f r]) date).files.map Prod.fst =
      ["output/" ++ date ++ "-" ++ toSlug name ++ ".md"] := by
  refine ⟨toSlug_eq_slugSpec, by decide, ?_, ?_⟩
  · rw [runHandler_ok ⟨name, brief, bg⟩ (fun r _ => .ok [f r])
      (f (analyzeRequest brief bg)) (f (expandRequest brief (f (analyzeRequest brief bg)) bg))
      (by simp [hn, hb]) rfl rfl]
  · rw [resumeHandler_ok ⟨name, brief, analysis, painPoints, bg⟩ (fun r _ => .ok [f r]) date
      (f (copyRequest brief analysis painPoints bg))
      (f (strategyRequest brief analysis painPoints (f (copyRequest brief analysis painPoints bg)) bg))
      (by simp [hn, hb, ha, hp]) rfl rfl]
    rfl

/-- Concrete instance of `slug_and_persistence_layout`: the spec's
end-to-end scenario. -/
theorem slug_and_persistence_layout_witness :
    toSlug "Acme Corp" = "acme-corp" ∧
    (runHandler ⟨"Acme Corp", "We sell eco-friendly packaging", none⟩ (fun _ _ => .ok ["out"])).files =
      [("briefs/acme-corp.txt", "We sell eco-friendly packaging")] := by
  have h := slug_and_persistence_layout "Acme Corp" "We sell eco-friendly packaging"
    "a" "p" "2026-10-12" none (fun _ => "out")
    (by decide) (by decide) (by decide) (by decide)
  exact ⟨h.2.1, h.2.2.1⟩

/-- C9 counterexample: the name "-" consists only of characters that are
neither ASCII alphanumerics nor whitespace, and passes validation, yet its
slug is "-", not the empty string — the brief lands in a file named
`-.txt` under `briefs/`, not in `.txt`.  So "any name consisting only of
characters that are neither ASCII alphanumerics nor whitespace" yielding
the empty slug is false as stated: the hyphen survives both regexes. -/
theorem hyphen_name_nonempty_slug_cx :
    toSlug "-" = "-" ∧ ("-" : String) ≠ "" ∧
    (runHandler ⟨"-", "b", none⟩ (fun _ _ => .ok ["x"])).files = [("briefs/-.txt", "b")] := by
  refine ⟨by decide, by decide, ?_⟩
  rw [runHandler_ok ⟨"-", "b", none⟩ (fun _ _ => .ok ["x"]) "x" "x" (by decide) rfl rfl]
  decide

/-- C9 as amended: for every non-empty client name consisting only of
ASCII characters that are neither alphanumerics, nor whitespace, nor
hyphens (such as "!!!"), validation passes but the slug is empty: the
brief is written to `briefs/.txt` and the final document to
`output/{date}-.md`, so all such names collide on the same two paths.
The domain is restricted to ASCII because there the embedded `jsToLower`
and `isJsWs` agree exactly with JavaScript's `toLowerCase` and `\s`;
outside ASCII the program itself escapes the collision class (U+212A
lowercases to `k`, so its slug is "k"; U+00A0 matches `\s`, so an
NBSP-only name slugs to "-"). -/
theorem symbol_only_names_collide (name brief date : String) (f : GenRequest → String)
    (hne : name ≠ "") (hb : brief ≠ "")
    (hsym : ∀ c ∈ name.data,
      c.toNat < 128 ∧ isAsciiAlnum c = false ∧ isJsWs c = false ∧ c ≠ '-') :
    toSlug name = "" ∧
    (runHandler ⟨name, brief, none⟩ (fun r _ => .ok [f r])).files = [("briefs/.txt", brief)] ∧
    (resumeHandler ⟨name, brief, "a", "p", none⟩ (fun r _ => .ok [f r]) date).files.map Prod.fst =
      ["output/" ++ date ++ "-.md"] := by
  have hAZ : ∀ c ∈ name.data, ('A' ≤ c && c ≤ 'Z') = false := by
    intro c hc
    have h1 := (hsym c hc).2.1
    simp only [isAsciiAlnum, Bool.or_eq_false_iff] at h1
    exact h1.1.2
  have hslug : toSlug name = "" := by
    rw [toSlug, map_jsToLower_id name.data hAZ,
      collapseWsGo_id name.data (fun c hc => (hsym c hc).2.2.1) false]
    have hfil : name.data.filter slugAllowed = [] := by
      rw [List.filter_eq_nil_iff]
      intro c hc
      have h1 := (hsym c hc).2.1
      have h3 := (hsym c hc).2.2.2
      simp only [isAsciiAlnum, Bool.or_eq_false_iff] at h1
      simp [slugAllowed, h1.1.1, h1.2, h3]
    rw [hfil]
  refine ⟨hslug, ?_, ?_⟩
  · rw [runHandler_ok ⟨name, brief, none⟩ (fun r _ => .ok [f r])
      (f (analyzeRequest brief none)) (f (expandRequest brief (f (analyzeRequest brief none)) none))
      (by simp [hne, hb]) rfl rfl]
    rw [hslug]
    rfl
  · rw [resumeHandler_ok ⟨name, brief, "a", "p", none⟩ (fun r _ => .ok [f r]) date
      (f (copyRequest brief "a" "p" none))
      (f (strategyRequest brief "a" "p" (f (copyRequest brief "a" "p" none)) none))
      (by simp [hne, hb]) rfl rfl]
    simp only [List.map_cons, List.map_nil]
    rw [hslug, String.append_empty, String.append_assoc]
    rfl

/-- Concrete instance of `symbol_only_names_collide` at the name "!!!". -/
theorem symbol_only_names_collide_witness :
    toSlug "!!!" = "" ∧
    (runHandler ⟨"!!!", "b", none⟩ (fun _ _ => .ok ["x"])).files = [("briefs/.txt", "b")] := by
  have h := symbol_only_names_collide "!!!" "b" "2026-10-12" (fun _ => "x")
    (by decide) (by decide) (by decide)
  exact ⟨h.1, h.2.1⟩

/-- C10: every stage extracts `message.content[0].text` with no guard: an
oracle answering with an empty content list makes every stage fail with
the unguarded-read TypeError, a non-overloaded error that `callClaude`
does not retry (`generateCopy` makes exactly one call, no delay) — and the
pipeline cannot tell it from a permanent upstream failure: the run
handler's event stream is identical under the empty-content oracle and
under an oracle failing permanently with the same error. -/
theorem empty_content_unguarded_throw (brief analysis painPoints copy : String)
    (bg : Option String) :
    (analyzeBrief brief bg (fun _ _ => .ok [])) =
      { result := .error typeErrorEmptyContent, delays := [], calls := 1 } ∧
    (expandPainPoints brief analysis bg (fun _ _ => .ok [])) =
      { result := .error typeErrorEmptyContent, delays := [], calls := 1 } ∧
    (generateCopy brief analysis painPoints bg (fun _ _ => .ok [])) =
      { result := .error typeErrorEmptyContent, delays := [], calls := 1 } ∧
    (buildStrategy brief analysis painPoints copy bg (fun _ _ => .ok [])) =
      { result := .error typeErrorEmptyContent, delays := [], calls := 1 } ∧
    isOverloaded typeErrorEmptyContent = false ∧
    (runHandler ⟨"Acme Corp", "We sell eco-friendly packaging", none⟩ (fun _ _ => .ok [])).events =
      (runHandler ⟨"Acme Corp", "We sell eco-friendly packaging", none⟩
        (fun _ _ => .error typeErrorEmptyContent)).events := by
  exact ⟨rfl, rfl, rfl, rfl, by decide, rfl⟩

end MadHat
